import Mathlib

/-!
Verification development for the MediFlow chat front-end (app.py).

The file gives a shallow embedding of the session-identity protocol of
`app.py`: the hidden session-marker codec carried in the chat history
(chat_fn, lines 74-85 and 107-117), the session lifecycle (mint or reuse,
lines 87-117), the final-response scan over agent execution events
(_send_and_get_final_response_async, lines 32-42), and the sync-to-async
bridge (run_agent_sync, lines 45-60).

Python strings are modelled as lists of characters; untrusted history
entries are modelled by the inductive type PyVal below; nondeterministic
or external effects (uuid4, the agent runtime, event-loop behaviour,
exceptions raised by the runtime) are supplied as explicit parameters or
environment records, and Python exception propagation is made explicit
with the PyResult type.
-/

set_option autoImplicit false

/-- Python strings are modelled as lists of characters. -/
abbrev Str := List Char

/-- app.py line 10: SESSION_ID_PREFIX = "session-". -/
def SESSION_ID_PREFIX : Str := ['s', 'e', 's', 's', 'i', 'o', 'n', '-']

/-- app.py line 11: DEFAULT_AGENT_KEY = "triage". -/
def DEFAULT_AGENT_KEY : Str := "triage".toList

/-- The hidden marker literal "__SID__:" tested by
first[0].startswith("__SID__:") at app.py line 79. -/
def SID_MARKER : Str := ['_', '_', 'S', 'I', 'D', '_', '_', ':']

/-- An element inside a history entry.  chat_fn only ever asks whether the
element is a string (isinstance(first[0], str), line 78); every non-string
Python value is abstracted by the constructor other, distinguished by a tag. -/
inductive PyItem where
  | str (s : Str)
  | other (tag : Nat)
deriving DecidableEq

/-- An untrusted entry of the incoming chat history.  chat_fn asks whether
the entry is a list or a tuple (isinstance(first, (list, tuple)), line 78);
any other Python value is abstracted by the constructor other. -/
inductive PyVal where
  | str (s : Str)
  | pylist (xs : List PyItem)
  | pytuple (xs : List PyItem)
  | other (tag : Nat)
deriving DecidableEq

/-- isinstance(v, (list, tuple)) together with element access:
returns the underlying sequence when v is a Python list or tuple. -/
def asSeq : PyVal → Option (List PyItem)
  | PyVal.pylist xs => some xs
  | PyVal.pytuple xs => some xs
  | _ => none

/-- Python s.split(":", 1)[1]: everything after the first colon.  In the
source this is only evaluated under the guard s.startswith("__SID__:")
(lines 79-80), so a colon is always present; on colon-free input this total
model returns []. -/
def pySplitColonRest : Str → Str
  | [] => []
  | c :: cs => if c = ':' then cs else pySplitColonRest cs

/-- The hidden marker built at app.py line 112/114:
the tuple ("__SID__:" + session_id, ""). -/
def encodeMarker (sid : Str) : PyVal :=
  PyVal.pytuple [PyItem.str ( SID_MARKER ++ sid), PyItem.str []]

/-- Embedding of the marker-detection block of chat_fn, app.py lines 74-85.
The incoming history is a Python list of untrusted entries or None.
Result: (the extracted session id or none, the possibly stripped history).
The source wraps the block in try/except; every branch of the block is a
total type test or string operation, which this definition reflects. -/
def decodeHistory (history : Option (List PyVal)) : Option Str × Option (List PyVal) :=
  match history with
  | some (first :: rest) =>
    match asSeq first with
    | some (PyItem.str s :: _) =>
      if SID_MARKER.isPrefixOf s then
        (some (pySplitColonRest s), some rest)
      else
        (none, some (first :: rest))
    | _ => (none, some (first :: rest))
  | h => (none, h)

/-- Python truthiness of the optional session id at app.py line 87:
`if not session_id` is taken when the id is None or the empty string. -/
def pyTruthy : Option Str → Bool
  | none => false
  | some [] => false
  | some (_ :: _) => true

/-- app.py line 89: session_id = SESSION_ID_PREFIX + str(uuid.uuid4());
the uuid string is an explicit parameter of the model. -/
def mintSessionId (u : Str) : Str := SESSION_ID_PREFIX ++ u

/-- app.py lines 111-114: prepend the hidden marker to the (possibly
already stripped) history, with the explicit None test of line 111. -/
def prependMarker (sid : Str) (hist : Option (List PyVal)) : List PyVal :=
  match hist with
  | none => [encodeMarker sid]
  | some hs => encodeMarker sid :: hs

/-- Observable outcome of the session-resolution part of chat_fn
(lines 74-117): the session id used, whether the registration block
(lines 91-105) was entered, the local history after marker stripping, and
the history_to_return value built at lines 111-117. -/
structure ResolveOut where
  session_id : Str
  registrationAttempted : Bool
  cleaned : Option (List PyVal)
  history_to_return : Option (List PyVal)
deriving DecidableEq

/-- Embedding of chat_fn lines 74-117: decode the marker, then either
reuse the extracted id (non-falsy), or mint a new id, attempt
registration, and prepend a fresh marker to the stripped history. -/
def resolveSession (history : Option (List PyVal)) (freshUuid : Str) : ResolveOut :=
  let dec := decodeHistory history
  let newSid := mintSessionId freshUuid
  let mintOut : ResolveOut :=
    { session_id := newSid
      registrationAttempted := true
      cleaned := dec.2
      history_to_return := some (prependMarker newSid dec.2) }
  match dec.1 with
  | some (c :: cs) =>
    { session_id := c :: cs
      registrationAttempted := false
      cleaned := dec.2
      history_to_return := dec.2 }
  | _ => mintOut

/-- One part of an agent content object; google.genai Part.text is
optional, so the text field may be absent (None). -/
structure PartV where
  text : Option Str
deriving DecidableEq

/-- Content of an execution event; parts models the optional parts list,
with [] covering both a missing and an empty list (both falsy at line 38). -/
structure ContentV where
  parts : List PartV
deriving DecidableEq

/-- One execution event of runner.run_async: exposes is_final_response()
and an optional content. -/
structure EventV where
  isFinal : Bool
  content : Option ContentV
deriving DecidableEq

/-- app.py line 35: the initial placeholder reply. -/
def NO_RESPONSE : Str := "(no response)".toList

/-- app.py line 41: the diagnostic header of the in-coroutine handler; the
argument models the rendered text of the caught exception together with
its traceback. -/
def AGENT_RUNTIME_ERROR_HEAD : Str := "[Agent runtime error] ".toList

/-- app.py line 60: the diagnostic header of the outer except clause. -/
def ERR_INVOKING_HEAD : Str := "[Error invoking agent] ".toList

/-- Body of the event loop of app.py lines 37-39: update the tracked
final_response when the event is final and has content with a non-empty
parts list; the second field of the test never looks at the text itself. -/
def stepEvent (acc : Option Str) (e : EventV) : Option Str :=
  match e.content with
  | none => acc
  | some c =>
    match c.parts with
    | [] => acc
    | p :: _ => if e.isFinal then p.text else acc

/-- Embedding of the try block of _send_and_get_final_response_async,
app.py lines 35-42: scan the yielded events, and if iterating the stream
raised, overwrite the tracked reply with the diagnostic string. -/
def finalResponseScan (events : List EventV) (streamFault : Option Str) : Option Str :=
  match streamFault with
  | some exc => some ( AGENT_RUNTIME_ERROR_HEAD ++ exc)
  | none => events.foldl stepEvent (some NO_RESPONSE)

/-- Kind of a Python exception, as far as the except clauses of
run_agent_sync distinguish them (RuntimeError versus everything else). -/
inductive ExcKind where
  | runtimeError
  | otherError
deriving DecidableEq

/-- Result of a Python call: a returned value or a propagating exception. -/
inductive PyResult (α : Type) where
  | ok (v : α)
  | exc (k : ExcKind) (msg : Str)
deriving DecidableEq

/-- External behaviour of one run of the coroutine
_send_and_get_final_response_async for this call.  setupFault models an
exception raised before the try block (AGENTS lookup at line 33, runner or
Content construction); events are the events yielded by run_async before
streamFault, an exception raised while iterating (caught at line 40). -/
structure AgentCallEnv where
  setupFault : Option (ExcKind × Str)
  events : List EventV
  streamFault : Option Str
deriving DecidableEq

/-- Outcome of running the coroutine of app.py lines 32-42 to completion:
a setup fault escapes the coroutine (it is outside the try block);
otherwise the coroutine returns the scanned final response. -/
def send_and_get_final_response (message agent_key session_id : Str)
    (env : AgentCallEnv) : PyResult (Option Str) :=
  match env.setupFault with
  | some km => PyResult.exc km.1 km.2
  | none => PyResult.ok (finalResponseScan env.events env.streamFault)

/-- External behaviour of the event-loop machinery for one call of
run_agent_sync.  runtimeErrOnPrimary: asyncio.run itself raises
RuntimeError (line 47-48, e.g. an event loop is already running).
fallbackFault: the fallback machinery of lines 50-58 itself raises
(run_until_complete refusing to run while another loop runs, or
loop.close failing). -/
structure BridgeEnv where
  call : AgentCallEnv
  runtimeErrOnPrimary : Bool
  fallbackFault : Option (ExcKind × Str)
deriving DecidableEq

/-- Message of the RuntimeError raised by asyncio.run under a running loop. -/
def ASYNCIO_RUN_ERR : Str :=
  "cannot be called from a running event loop".toList

/-- Message of the RuntimeError raised by loop.run_until_complete when
another event loop is already running in the same thread. -/
def RUNNING_LOOP_ERR : Str :=
  "Cannot run the event loop while another loop is running".toList

/-- Embedding of run_agent_sync, app.py lines 45-60.  The primary path
runs asyncio.run; a RuntimeError from it (or re-raised from the coroutine)
selects the except RuntimeError handler of lines 48-58, whose body re-runs
the coroutine on a fresh loop.  Python does not route an exception raised
inside an except handler to a sibling handler of the same try statement,
so any fault on the fallback path propagates (PyResult.exc); only a
non-RuntimeError fault on the primary path reaches the except Exception
clause of lines 59-60 and becomes a diagnostic string. -/
def run_agent_sync (message agent_key session_id : Str) (env : BridgeEnv) :
    PyResult (Option Str) :=
  let primary : PyResult (Option Str) :=
    if env.runtimeErrOnPrimary then PyResult.exc ExcKind.runtimeError ASYNCIO_RUN_ERR
    else send_and_get_final_response message agent_key session_id env.call
  match primary with
  | PyResult.ok r => PyResult.ok r
  | PyResult.exc ExcKind.runtimeError _ =>
    match env.fallbackFault with
    | some fk => PyResult.exc fk.1 fk.2
    | none => send_and_get_final_response message agent_key session_id env.call
  | PyResult.exc ExcKind.otherError m => PyResult.ok (some ( ERR_INVOKING_HEAD ++ m))

/-- External behaviour of the whole turn: the outcome of the best-effort
registration block (create_session, lines 92-105; some = the exception it
raised, swallowed at lines 103-105) and the bridge environment. -/
structure TurnEnv where
  registerFault : Option Str
  bridge : BridgeEnv
deriving DecidableEq

/-- Observables of one chat_fn invocation. -/
structure TurnOut where
  response : PyResult (Option Str)
  history_to_return : Option (List PyVal)
  session_id_used : Str
  registrationAttempted : Bool
  swallowedRegisterFault : Option Str
  cleaned : Option (List PyVal)
deriving DecidableEq

/-- Embedding of the body of chat_fn, app.py lines 63-127: resolve the
session (lines 74-117), attempt registration only on the mint path with
every registration fault swallowed (except Exception: pass, lines
103-105), then dispatch the message through run_agent_sync with the
resolved session id (line 120). -/
def chatTurn (message : Str) (history : Option (List PyVal)) (agent_choice : Str)
    (env : TurnEnv) (freshUuid : Str) : TurnOut :=
  let r := resolveSession history freshUuid
  { response := run_agent_sync message agent_choice r.session_id env.bridge
    history_to_return := r.history_to_return
    session_id_used := r.session_id
    registrationAttempted := r.registrationAttempted
    swallowedRegisterFault := if r.registrationAttempted then env.registerFault else none
    cleaned := r.cleaned }

/-- What the source chat_fn actually returns (app.py line 127): only the
response string. -/
def chat_fn (message : Str) (history : Option (List PyVal)) (agent_choice : Str)
    (env : TurnEnv) (freshUuid : Str) : PyResult (Option Str) :=
  (chatTurn message history agent_choice env freshUuid).response

/-- The orchestrator contract of the specification, section 4.5:
handleTurn(message, rawHistory, agentKey) -> (replyText, historyToPersist),
read off the observables of chat_fn (replyText is the returned response,
historyToPersist is the history_to_return value built at lines 107-117). -/
def handleTurn (message : Str) (history : Option (List PyVal)) (agent_choice : Str)
    (env : TurnEnv) (freshUuid : Str) : PyResult (Option Str) × Option (List PyVal) :=
  let t := chatTurn message history agent_choice env freshUuid
  (t.response, t.history_to_return)

/-- Is the event final with content whose parts list is non-empty
(the qualification test of app.py line 38)?  Returns the first part. -/
def qualPart (e : EventV) : Option PartV :=
  match e.content with
  | none => none
  | some c =>
    match c.parts with
    | [] => none
    | p :: _ => if e.isFinal then some p else none

/-- Specification-side reading of the scan: the first part of the last
qualifying event of the sequence, searched from the right. -/
def lastQualifying : List EventV → Option PartV
  | [] => none
  | e :: es =>
    match lastQualifying es with
    | some p => some p
    | none => qualPart e

/-- Does the first entry of the history pass the lenient marker test of
app.py lines 76-79 (a list or tuple, length at least 1, first element a
string starting with the marker literal)? -/
def markerishEntry (v : PyVal) : Bool :=
  match asSeq v with
  | some (PyItem.str s :: _) => SID_MARKER.isPrefixOf s
  | _ => false

/-- Lenient marker test applied at index 0 of the history. -/
def leadMarkerish : Option (List PyVal) → Bool
  | some (e :: _) => markerishEntry e
  | _ => false

/-- A fault-free agent-call environment yielding no events. -/
def callNoFault : AgentCallEnv :=
  { setupFault := none, events := [], streamFault := none }

/-- A fault-free bridge environment. -/
def bridgeNoFault : BridgeEnv :=
  { call := callNoFault, runtimeErrOnPrimary := false, fallbackFault := none }

/-- A fault-free turn environment. -/
def envNoFault : TurnEnv :=
  { registerFault := none, bridge := bridgeNoFault }

/-! ### Helper lemmas -/

lemma isPrefixOf_append_self (l t : List Char) : l.isPrefixOf (l ++ t) = true := by
  induction l with
  | nil => simp
  | cons a as ih => simp [List.isPrefixOf_cons₂, ih]

lemma pySplit_marker (sid : Str) : pySplitColonRest ( SID_MARKER ++ sid) = sid := rfl

lemma decode_none : decodeHistory none = (none, none) := rfl

lemma decode_marker_cons (sid : Str) (H : List PyVal) :
    decodeHistory (some (encodeMarker sid :: H)) = (some sid, some H) := by
  simp [decodeHistory, encodeMarker, asSeq, isPrefixOf_append_self, pySplit_marker]

lemma resolveSession_eq_mint (history : Option (List PyVal)) (u : Str)
    (h : pyTruthy (decodeHistory history).1 = false) :
    resolveSession history u =
      { session_id := mintSessionId u
        registrationAttempted := true
        cleaned := (decodeHistory history).2
        history_to_return :=
          some (prependMarker (mintSessionId u) (decodeHistory history).2) } := by
  unfold resolveSession
  rcases hd : (decodeHistory history).1 with _ | s
  · simp [hd]
  · rcases s with _ | ⟨c, cs⟩
    · simp [hd]
    · rw [hd] at h
      simp [pyTruthy] at h

lemma resolveSession_eq_reuse (history : Option (List PyVal)) (u : Str) (c : Char)
    (cs : Str) (h : (decodeHistory history).1 = some (c :: cs)) :
    resolveSession history u =
      { session_id := c :: cs
        registrationAttempted := false
        cleaned := (decodeHistory history).2
        history_to_return := (decodeHistory history).2 } := by
  unfold resolveSession
  simp [h]

lemma stepEvent_eq (acc : Option Str) (e : EventV) :
    stepEvent acc e = match qualPart e with
      | some p => p.text
      | none => acc := by
  rcases e with ⟨fin, cont⟩
  rcases cont with _ | c
  · rfl
  · rcases c with ⟨parts⟩
    rcases parts with _ | ⟨p, ps⟩
    · rfl
    · cases fin <;> rfl

lemma foldl_stepEvent (events : List EventV) (acc : Option Str) :
    events.foldl stepEvent acc = match lastQualifying events with
      | some p => p.text
      | none => acc := by
  induction events generalizing acc with
  | nil => rfl
  | cons e es ih =>
    rw [List.foldl_cons, ih]
    show (match lastQualifying es with | some p => p.text | none => stepEvent acc e)
        = (match lastQualifying (e :: es) with | some p => p.text | none => acc)
    rcases hq : lastQualifying es with _ | p
    · simp [lastQualifying, hq, stepEvent_eq]
    · simp [lastQualifying, hq]

/-! ### Claim theorems -/

/-- Claim C1 (marker round-trip): for every non-empty session-id string and
every history H, decoding the history formed by prepending the encoded
marker to H yields exactly that session id together with H unchanged. -/
theorem decode_roundtrip (sid : Str) (H : List PyVal) (hsid : sid ≠ []) :
    decodeHistory (some (encodeMarker sid :: H)) = (some sid, some H) :=
  decode_marker_cons sid H

/-- Witness for decode_roundtrip at sid = "session-abc123" and a one-turn
history. -/
theorem decode_roundtrip_witness :
    decodeHistory (some (encodeMarker "session-abc123".toList ::
        [PyVal.pytuple [PyItem.str "hi".toList, PyItem.str "yo".toList]]))
      = (some "session-abc123".toList,
         some [PyVal.pytuple [PyItem.str "hi".toList, PyItem.str "yo".toList]]) :=
  decode_roundtrip "session-abc123".toList
    [PyVal.pytuple [PyItem.str "hi".toList, PyItem.str "yo".toList]] (by decide)

/-- Claim C2, corrected (reply characterization): with no stream fault the
scan returns the text field of the first part of the last qualifying event
(final, with content whose parts list is non-empty) - a value that is null
when that part carries no text - and the placeholder "(no response)" when
no event qualifies; a stream fault yields the diagnostic string.  The
original claim that the result is always a non-null string fails, see
finalResponse_null_cex. -/
theorem finalResponse_characterization (events : List EventV) :
    (finalResponseScan events none =
      match lastQualifying events with
      | some p => p.text
      | none => some NO_RESPONSE) ∧
    ∀ exc, finalResponseScan events (some exc) =
      some ( AGENT_RUNTIME_ERROR_HEAD ++ exc) := by
  constructor
  · simpa [finalResponseScan] using foldl_stepEvent events (some NO_RESPONSE)
  · intro exc
    rfl

/-- Claim C2, counterexample: a single final event whose content has one
part with a null text makes the dispatched turn return None (a null, not a
string): the claimed reply totality fails on the code. -/
theorem finalResponse_null_cex :
    run_agent_sync "m".toList DEFAULT_AGENT_KEY "s".toList
      { call := { setupFault := none
                  events := [{ isFinal := true, content := some { parts := [{ text := none }] } }]
                  streamFault := none }
        runtimeErrOnPrimary := false
        fallbackFault := none }
      = PyResult.ok none := rfl

/-- Claim C3 (orchestrator output on a first-ever turn): with a null
history the turn yields the pair of the reply and a history-to-persist
consisting of exactly one marker entry, encoding the freshly minted
session id, followed by nothing. -/
theorem handleTurn_first_turn (msg : Str) (env : TurnEnv) (u : Str) :
    handleTurn msg none DEFAULT_AGENT_KEY env u
      = (chat_fn msg none DEFAULT_AGENT_KEY env u,
         some [encodeMarker (mintSessionId u)]) := by
  have hm := resolveSession_eq_mint none u (by decide)
  simp [handleTurn, chat_fn, chatTurn, hm, decode_none, prependMarker]

/-- Claim C4 (code bug, fault containment): when asyncio.run raises
RuntimeError because an event loop is already running, the fallback
handler's own loop.run_until_complete raises RuntimeError as well, and -
since an exception raised inside an except handler is not routed to the
sibling except Exception clause - that exception propagates out of
run_agent_sync to the UI caller instead of becoming a diagnostic string. -/
theorem bridge_fallback_fault_escapes :
    run_agent_sync "Hello".toList DEFAULT_AGENT_KEY "session-x".toList
      { call := callNoFault
        runtimeErrOnPrimary := true
        fallbackFault := some (ExcKind.runtimeError, RUNNING_LOOP_ERR) }
      = PyResult.exc ExcKind.runtimeError RUNNING_LOOP_ERR := rfl

/-- Claim C5 (no-crash resolve): session resolution is a total function of
the untrusted history - the source guards every access with type tests and
a catch-all except - and the resolved session id is never empty: a decode
failure or an empty extracted id degrades to the mint path, whose id
starts with "session-". -/
theorem resolveSession_no_crash (history : Option (List PyVal)) (u : Str) :
    (resolveSession history u).session_id ≠ [] ∧
    (pyTruthy (decodeHistory history).1 = false →
      (resolveSession history u).session_id = mintSessionId u ∧
      (resolveSession history u).registrationAttempted = true) := by
  rcases hd : (decodeHistory history).1 with _ | s
  · have hm := resolveSession_eq_mint history u (by rw [hd]; rfl)
    simp [hm, mintSessionId, SESSION_ID_PREFIX]
  · rcases s with _ | ⟨c, cs⟩
    · have hm := resolveSession_eq_mint history u (by rw [hd]; rfl)
      simp [hm, mintSessionId, SESSION_ID_PREFIX]
    · have hr := resolveSession_eq_reuse history u c cs hd
      simp [hr, hd, pyTruthy]

/-- Witness for resolveSession_no_crash on a malformed history: a marker
with an empty id, a non-string entry, and an empty tuple. -/
theorem resolveSession_no_crash_witness :
    (resolveSession
        (some [PyVal.pytuple [PyItem.str "__SID__:".toList],
               PyVal.other 7, PyVal.pytuple []]) "u0".toList).session_id
      = mintSessionId "u0".toList := by
  have h := resolveSession_no_crash
    (some [PyVal.pytuple [PyItem.str "__SID__:".toList],
           PyVal.other 7, PyVal.pytuple []]) "u0".toList
  exact (h.2 (by decide)).1

/-- Claim C6, amended (marker absence idempotence): decode returns absent
and leaves the history entirely unchanged for every history - including
empty or null - whose FIRST entry fails the lenient test actually coded
(a list or tuple of length at least 1 whose first element is a string
starting with the marker literal); the second field of the entry plays no
role in the test. -/
theorem decode_no_marker_unchanged (history : Option (List PyVal))
    (h : leadMarkerish history = false) :
    decodeHistory history = (none, history) := by
  rcases history with _ | hs
  · rfl
  · rcases hs with _ | ⟨first, rest⟩
    · rfl
    · unfold decodeHistory
      rcases ha : asSeq first with _ | xs
      · simp [ha]
      · rcases xs with _ | ⟨x0, xr⟩
        · simp [ha]
        · rcases x0 with s | t
          · have hm : SID_MARKER.isPrefixOf s = false := by
              have := h
              simp [leadMarkerish, markerishEntry, ha] at this
              exact this
            simp [ha, hm]
          · simp [ha]

/-- Witness for decode_no_marker_unchanged: a history whose first entry is
a plain string (not a list or tuple). -/
theorem decode_no_marker_unchanged_witness :
    decodeHistory (some [PyVal.str "hello".toList])
      = (none, some [PyVal.str "hello".toList]) :=
  decode_no_marker_unchanged (some [PyVal.str "hello".toList]) (by decide)

/-- Claim C6, counterexample: the entry ("__SID__:abc", "x") has a
non-empty second field, so it does not match the claimed marker shape, yet
decode strips it and extracts "abc" instead of returning absent with the
history unchanged. -/
theorem decode_second_field_ignored_cex :
    decodeHistory (some [PyVal.pytuple
        [PyItem.str "__SID__:abc".toList, PyItem.str "x".toList]])
      = (some "abc".toList, some []) ∧
    decodeHistory (some [PyVal.pytuple
        [PyItem.str "__SID__:abc".toList, PyItem.str "x".toList]])
      ≠ (none, some [PyVal.pytuple
        [PyItem.str "__SID__:abc".toList, PyItem.str "x".toList]]) := by
  decide

/-- Claim C7 (reuse path): when the history carries a valid marker at
index 0, the turn uses exactly the extracted session id, the registration
block is not entered (no fault to swallow), the downstream history is the
original history with only the marker removed, and the reply is the
dispatch of the message under that session id. -/
theorem reuse_path (msg key sid : Str) (H : List PyVal) (env : TurnEnv) (u : Str)
    (hsid : sid ≠ []) :
    (chatTurn msg (some (encodeMarker sid :: H)) key env u).session_id_used = sid ∧
    (chatTurn msg (some (encodeMarker sid :: H)) key env u).registrationAttempted = false ∧
    (chatTurn msg (some (encodeMarker sid :: H)) key env u).swallowedRegisterFault = none ∧
    (chatTurn msg (some (encodeMarker sid :: H)) key env u).cleaned = some H ∧
    (chatTurn msg (some (encodeMarker sid :: H)) key env u).history_to_return = some H ∧
    (chatTurn msg (some (encodeMarker sid :: H)) key env u).response
      = run_agent_sync msg key sid env.bridge := by
  obtain ⟨c, cs, rfl⟩ := List.exists_cons_of_ne_nil hsid
  have hd := decode_marker_cons (c :: cs) H
  have hr := resolveSession_eq_reuse (some (encodeMarker (c :: cs) :: H)) u c cs
    (by rw [hd])
  simp [chatTurn, hr, hd]

/-- Witness for reuse_path: the scenario history [("__SID__:session-abc123", "")]
decodes to "session-abc123" with an empty cleaned history and no
registration attempt. -/
theorem reuse_path_witness :
    (chatTurn "Again".toList (some [encodeMarker "session-abc123".toList])
        "triage".toList envNoFault "u0".toList).session_id_used
        = "session-abc123".toList ∧
    (chatTurn "Again".toList (some [encodeMarker "session-abc123".toList])
        "triage".toList envNoFault "u0".toList).registrationAttempted = false ∧
    (chatTurn "Again".toList (some [encodeMarker "session-abc123".toList])
        "triage".toList envNoFault "u0".toList).cleaned = some [] := by
  have h := reuse_path "Again".toList "triage".toList "session-abc123".toList []
    envNoFault "u0".toList (by decide)
  exact ⟨h.1, h.2.1, h.2.2.2.1⟩

/-- Claim C8 (registration failure swallowed): on the new-session path a
failing create_session call changes nothing observable - the reply and the
returned history equal those of the fault-free registration - the fault is
recorded only as swallowed, and the turn still dispatches the message
under the minted session id. -/
theorem registration_fault_swallowed (msg key : Str) (history : Option (List PyVal))
    (benv : BridgeEnv) (u e : Str)
    (habsent : pyTruthy (decodeHistory history).1 = false) :
    (chatTurn msg history key { registerFault := some e, bridge := benv } u).response
      = (chatTurn msg history key { registerFault := none, bridge := benv } u).response ∧
    (chatTurn msg history key { registerFault := some e, bridge := benv } u).history_to_return
      = (chatTurn msg history key { registerFault := none, bridge := benv } u).history_to_return ∧
    (chatTurn msg history key { registerFault := some e, bridge := benv } u).registrationAttempted
      = true ∧
    (chatTurn msg history key { registerFault := some e, bridge := benv } u).swallowedRegisterFault
      = some e ∧
    (chatTurn msg history key { registerFault := some e, bridge := benv } u).response
      = run_agent_sync msg key (mintSessionId u) benv := by
  have hm := resolveSession_eq_mint history u habsent
  simp [chatTurn, hm]

/-- Witness for registration_fault_swallowed on a null history with a
failing registration backend. -/
theorem registration_fault_swallowed_witness :
    (chatTurn "Hello".toList none "triage".toList
        { registerFault := some "boom".toList, bridge := bridgeNoFault } "u0".toList).response
      = (chatTurn "Hello".toList none "triage".toList
        { registerFault := none, bridge := bridgeNoFault } "u0".toList).response := by
  have h := registration_fault_swallowed "Hello".toList "triage".toList none
    bridgeNoFault "u0".toList "boom".toList (by decide)
  exact h.1

/-- Claim C9 (minted-id shape invariant): every minted session id is the
literal "session-" followed by the uuid string, hence non-empty, never
begins with the marker literal "__SID__:", and is classified as present by
the truthiness test of line 87. -/
theorem minted_sid_shape (u : Str) :
    mintSessionId u = SESSION_ID_PREFIX ++ u ∧
    mintSessionId u ≠ [] ∧
    SID_MARKER.isPrefixOf (mintSessionId u) = false ∧
    pyTruthy (some (mintSessionId u)) = true := by
  refine ⟨rfl, ?_, ?_, rfl⟩
  · simp [mintSessionId, SESSION_ID_PREFIX]
  · have hne : (('_' : Char) == 's') = false := by decide
    simp [mintSessionId, SESSION_ID_PREFIX, SID_MARKER, List.isPrefixOf_cons₂, hne]

/-- Claim C10 (lenient marker detection): any first entry that is a list
or tuple of length at least 1 whose first element is a string starting
with "__SID__:" is treated as a marker - the second field is never
examined - and the extracted id is everything after the first colon. -/
theorem lenient_marker_detection (s : Str) (rest : List PyItem) (H : List PyVal)
    (h : SID_MARKER.isPrefixOf s = true) :
    decodeHistory (some (PyVal.pytuple (PyItem.str s :: rest) :: H))
      = (some (pySplitColonRest s), some H) ∧
    decodeHistory (some (PyVal.pylist (PyItem.str s :: rest) :: H))
      = (some (pySplitColonRest s), some H) := by
  constructor <;> simp [decodeHistory, asSeq, h]

/-- Witness for lenient_marker_detection: a 2-tuple entry with a non-empty
second field and an id containing a further colon is still stripped, and
the id is everything after the first colon. -/
theorem lenient_marker_detection_witness :
    decodeHistory (some [PyVal.pytuple
        [PyItem.str "__SID__:a:b".toList, PyItem.str "reply".toList]])
      = (some "a:b".toList, some []) := by
  have h := (lenient_marker_detection "__SID__:a:b".toList
    [PyItem.str "reply".toList] [] (by decide)).1
  rw [h]
  decide
